import Mathlib

/-!
Shallow embedding of the download task orchestrator of this repository:
the download-manager module (task registry, progress model, pause/resume/
cancel, MP3 extraction) and the process-running download endpoint with its
temp-file cleanup. Machine numbers (JS `number`) are modelled as rationals;
`Math.round`, `Math.ceil`, `Math.min`, `Math.max` become their exact
counterparts on `ℚ`. Thrown exceptions become explicit error results, and
mutation of the module-level maps becomes explicit state passing.
-/

namespace Dl

/-- JS `Math.round`: round half toward positive infinity. -/
def jsRound (x : ℚ) : ℤ := ⌊x + 1 / 2⌋

/-- Video quality labels from the extractor module. -/
inductive VideoQuality
  | q360p
  | q480p
  | q720p
  | q1080p
  | q4k
  deriving DecidableEq, Repr

/-- Output formats from the extractor module. -/
inductive VideoFormat
  | mp4
  | mp3
  deriving DecidableEq, Repr

/-- Source platforms from the extractor module. -/
inductive Platform
  | youtube
  | tiktok
  deriving DecidableEq, Repr

/-- Record `QualityOption` from the extractor module; `bitrate` is optional there. -/
structure QualityOption where
  quality : VideoQuality
  format : VideoFormat
  fileSize : ℚ
  bitrate : Option ℚ := none
  available : Bool
  recommended : Bool := false
  deriving DecidableEq, Repr

/-- Record `VideoInfo` from the extractor module. -/
structure VideoInfo where
  id : String
  title : String
  description : String := ""
  thumbnail : String := ""
  duration : ℚ
  platform : Platform := .youtube
  qualities : List QualityOption
  deriving DecidableEq, Repr

/-- The `DownloadStatus` union type of the download manager. -/
inductive DownloadStatus
  | pending
  | downloading
  | paused
  | completed
  | failed
  deriving DecidableEq, Repr

/-- The string a status interpolates to in thrown error messages. -/
def statusToString : DownloadStatus → String
  | .pending => "pending"
  | .downloading => "downloading"
  | .paused => "paused"
  | .completed => "completed"
  | .failed => "failed"

/-- The `DownloadProgress` record of the download manager. -/
structure DownloadProgress where
  percentage : ℚ
  downloadedBytes : ℚ
  totalBytes : ℚ
  speed : ℚ
  estimatedTimeRemaining : ℚ
  deriving DecidableEq, Repr

/-- The `DownloadTask` record of the download manager. -/
structure DownloadTask where
  id : String
  videoInfo : VideoInfo
  quality : QualityOption
  status : DownloadStatus
  progress : DownloadProgress
  startedAt : ℚ
  pausedAt : Option ℚ := none
  completedAt : Option ℚ := none
  error : Option String := none
  deriving DecidableEq, Repr

/-- Minimum audio bitrate for MP3 extraction (128 kbps). -/
def MIN_AUDIO_BITRATE : ℚ := 128

/-- Function `createInitialProgress`: zeroed progress with the given total. -/
def createInitialProgress (totalBytes : ℚ) : DownloadProgress :=
  { percentage := 0
    downloadedBytes := 0
    totalBytes := totalBytes
    speed := 0
    estimatedTimeRemaining := 0 }

/-- Function `calculatePercentage`: 0 when the total is not positive, otherwise the
ratio as a percentage rounded to two decimals and clamped to [0, 100]. -/
def calculatePercentage (downloadedBytes totalBytes : ℚ) : ℚ :=
  if totalBytes ≤ 0 then 0
  else
    min 100 (max 0 (((jsRound (downloadedBytes / totalBytes * 100 * 100) : ℤ) : ℚ) / 100))

/-- Function `calculateETA`: 0 when speed or remaining bytes are not positive,
otherwise the ceiling of remaining over speed. -/
def calculateETA (remainingBytes speed : ℚ) : ℚ :=
  if speed ≤ 0 ∨ remainingBytes ≤ 0 then 0
  else ((⌈remainingBytes / speed⌉ : ℤ) : ℚ)

/-- Function `updateProgress`: rebuild a progress record from new byte count and speed. -/
def updateProgress (task : DownloadTask) (downloadedBytes speed : ℚ) :
    DownloadProgress :=
  let totalBytes := task.progress.totalBytes
  let remainingBytes := totalBytes - downloadedBytes
  { percentage := calculatePercentage downloadedBytes totalBytes
    downloadedBytes := downloadedBytes
    totalBytes := totalBytes
    speed := speed
    estimatedTimeRemaining := calculateETA remainingBytes speed }

/-- Function `validateAudioBitrate`: true when the bitrate meets the 128 kbps floor. -/
def validateAudioBitrate (bitrate : ℚ) : Bool :=
  decide (MIN_AUDIO_BITRATE ≤ bitrate)

/-! ### Registry state

The module-level `activeDownloads : Map<string, DownloadTask>` and
`downloadIntervals : Map<string, Timeout>` become an association list of
tasks and the list of task ids that currently have a live interval. -/

/-- JS `Map.get` on the task table. -/
def lookupTask : List (String × DownloadTask) → String → Option DownloadTask
  | [], _ => none
  | p :: rest, k => if p.1 = k then some p.2 else lookupTask rest k

/-- JS `Map.delete` on the task table. -/
def eraseTask : List (String × DownloadTask) → String → List (String × DownloadTask)
  | [], _ => []
  | p :: rest, k => if p.1 = k then eraseTask rest k else p :: eraseTask rest k

/-- JS `Map.set` on the task table. -/
def setTask (l : List (String × DownloadTask)) (k : String) (v : DownloadTask) :
    List (String × DownloadTask) :=
  (k, v) :: eraseTask l k

/-- JS `Map.delete` on the interval key set. -/
def removeKey : List String → String → List String
  | [], _ => []
  | x :: rest, k => if x = k then removeKey rest k else x :: removeKey rest k

/-- JS `Map.set` on the interval key set. -/
def addKey (l : List String) (k : String) : List String :=
  k :: removeKey l k

/-- The two module-level maps of the download manager, as explicit state. -/
structure ManagerState where
  activeDownloads : List (String × DownloadTask)
  downloadIntervals : List String
  deriving DecidableEq, Repr

/-- The state at module load: both maps empty. -/
def emptyState : ManagerState :=
  { activeDownloads := [], downloadIntervals := [] }

/-! ### Download manager operations

A thrown `Error` becomes an error value returned alongside the (then
unchanged) state; the generated task id, `Date.now()` and the random
samples of the simulator are nondeterministic inputs and become explicit
parameters. -/

/-- Function `startDownload`: reject an unavailable quality, otherwise create a
downloading task with zeroed progress, store it, and register the
simulation interval for it. -/
def startDownload (st : ManagerState) (taskId : String) (now : ℚ)
    (videoInfo : VideoInfo) (quality : QualityOption) :
    ManagerState × Except String DownloadTask :=
  if !quality.available then
    (st, .error "Selected quality is not available for this video")
  else
    let task : DownloadTask :=
      { id := taskId
        videoInfo := videoInfo
        quality := quality
        status := .downloading
        progress := createInitialProgress quality.fileSize
        startedAt := now }
    ({ activeDownloads := setTask st.activeDownloads taskId task
       downloadIntervals := addKey st.downloadIntervals taskId }, .ok task)

/-- One firing of the `simulateDownloadProgress` interval callback for
`taskId`. `baseSpeed` is the per-task base speed sampled as
`500000 + Math.random() * 1500000` when the simulation started, and `r`
is the per-tick `Math.random()` sample of the speed variation. -/
def tick (st : ManagerState) (taskId : String) (baseSpeed r now : ℚ) :
    ManagerState :=
  match lookupTask st.activeDownloads taskId with
  | none =>
    { st with downloadIntervals := removeKey st.downloadIntervals taskId }
  | some currentTask =>
    if currentTask.status ≠ .downloading then
      { st with downloadIntervals := removeKey st.downloadIntervals taskId }
    else
      let speed := baseSpeed * (8 / 10 + r * (4 / 10))
      let bytesPerInterval := speed * (1 / 10)
      let newDownloadedBytes :=
        min (currentTask.progress.downloadedBytes + bytesPerInterval)
          currentTask.progress.totalBytes
      let updated :=
        { currentTask with
            progress := updateProgress currentTask newDownloadedBytes speed }
      if updated.progress.percentage ≥ 100 then
        let finished :=
          { updated with
              status := .completed
              completedAt := some now
              progress :=
                { updated.progress with
                    percentage := 100
                    downloadedBytes := updated.progress.totalBytes
                    estimatedTimeRemaining := 0 } }
        { activeDownloads := setTask st.activeDownloads taskId finished
          downloadIntervals := removeKey st.downloadIntervals taskId }
      else
        { st with activeDownloads := setTask st.activeDownloads taskId updated }

/-- Function `pauseDownload`: not-found and wrong-status failures leave the state
unchanged; success clears the interval, marks the task paused and zeroes
its speed. -/
def pauseDownload (st : ManagerState) (taskId : String) (now : ℚ) :
    ManagerState × Option String :=
  match lookupTask st.activeDownloads taskId with
  | none => (st, some ("Download task not found: " ++ taskId))
  | some task =>
    if task.status ≠ .downloading then
      (st, some ("Cannot pause download with status: " ++ statusToString task.status))
    else
      ({ activeDownloads :=
           setTask st.activeDownloads taskId
             { task with
                 status := .paused
                 pausedAt := some now
                 progress := { task.progress with speed := 0 } }
         downloadIntervals := removeKey st.downloadIntervals taskId }, none)

/-- Function `resumeDownload`: not-found and wrong-status failures leave the state
unchanged; success marks the task downloading again and restarts the
simulation interval. -/
def resumeDownload (st : ManagerState) (taskId : String) :
    ManagerState × Option String :=
  match lookupTask st.activeDownloads taskId with
  | none => (st, some ("Download task not found: " ++ taskId))
  | some task =>
    if task.status ≠ .paused then
      (st, some ("Cannot resume download with status: " ++ statusToString task.status))
    else
      ({ activeDownloads :=
           setTask st.activeDownloads taskId
             { task with status := .downloading, pausedAt := none }
         downloadIntervals := addKey st.downloadIntervals taskId }, none)

/-- Function `cancelDownload`: throws not-found for an unknown id; otherwise clears
the interval and removes the task from the registry. -/
def cancelDownload (st : ManagerState) (taskId : String) :
    ManagerState × Option String :=
  match lookupTask st.activeDownloads taskId with
  | none => (st, some ("Download task not found: " ++ taskId))
  | some _ =>
    ({ activeDownloads := eraseTask st.activeDownloads taskId
       downloadIntervals := removeKey st.downloadIntervals taskId }, none)

/-- JS truthiness of the optional `bitrate` field (`undefined` and `0` are
falsy). -/
def bitrateTruthy : Option ℚ → Bool
  | none => false
  | some b => b != 0

/-- Function `startMP3Download`: find the mp3 quality option, reject when missing or
unavailable, reject a truthy bitrate below the floor, else start a normal
download with that option. -/
def startMP3Download (st : ManagerState) (taskId : String) (now : ℚ)
    (videoInfo : VideoInfo) : ManagerState × Except String DownloadTask :=
  match videoInfo.qualities.find? (fun q => q.format == VideoFormat.mp3) with
  | none => (st, .error "MP3 format is not available for this video")
  | some mp3Quality =>
    if !mp3Quality.available then
      (st, .error "MP3 format is not available for this video")
    else if bitrateTruthy mp3Quality.bitrate
        && decide (mp3Quality.bitrate.getD 0 < MIN_AUDIO_BITRATE) then
      (st, .error "Audio bitrate must be at least 128kbps")
    else
      startDownload st taskId now videoInfo mp3Quality

/-! ### Audio extraction -/

/-- The `AudioMetadata` record of the download manager. -/
structure AudioMetadata where
  title : String
  artist : Option String := none
  album : Option String := none
  year : Option String := none
  genre : Option String := none
  deriving DecidableEq, Repr

/-- JS `Partial<AudioMetadata>`: every field optional. -/
structure PartialAudioMetadata where
  title : Option String := none
  artist : Option String := none
  album : Option String := none
  year : Option String := none
  genre : Option String := none
  deriving DecidableEq, Repr

/-- The `AudioExtractionResult` record of the download manager. -/
structure AudioExtractionResult where
  success : Bool
  filePath : Option String := none
  bitrate : ℚ
  duration : ℚ
  metadata : Option AudioMetadata := none
  error : Option String := none
  deriving DecidableEq, Repr

/-- JS `a || b` on an optional string: `undefined` and `""` are falsy. -/
def strOrElse (a : Option String) (b : String) : String :=
  match a with
  | none => b
  | some s => if s = "" then b else s

/-- Function `extractAudio`: clamp the target bitrate up to the floor, validate the
video info, find an available mp3 option, and report a simulated success. -/
def extractAudio (videoInfo : Option VideoInfo) (targetBitrate : ℚ)
    (metadata : Option PartialAudioMetadata) : AudioExtractionResult :=
  let actualBitrate := max targetBitrate MIN_AUDIO_BITRATE
  match videoInfo with
  | none =>
    { success := false, bitrate := 0, duration := 0
      error := some "Invalid video information provided" }
  | some vi =>
    if vi.id = "" then
      { success := false, bitrate := 0, duration := 0
        error := some "Invalid video information provided" }
    else
      match vi.qualities.find? (fun q => q.format == VideoFormat.mp3) with
      | none =>
        { success := false, bitrate := 0, duration := 0
          error := some "MP3 format is not available for this video" }
      | some mp3Quality =>
        if !mp3Quality.available then
          { success := false, bitrate := 0, duration := 0
            error := some "MP3 format is not available for this video" }
        else
          let audioMetadata : AudioMetadata :=
            { title := strOrElse (metadata.bind (fun m => m.title)) vi.title
              artist := metadata.bind (fun m => m.artist)
              album := metadata.bind (fun m => m.album)
              year := metadata.bind (fun m => m.year)
              genre := metadata.bind (fun m => m.genre) }
          { success := true
            filePath := some ("downloads/" ++ vi.id ++ ".mp3")
            bitrate := actualBitrate
            duration := vi.duration
            metadata := some audioMetadata }

/-! ### Process-running download endpoint

The `GET` handler of the yt-dlp endpoint, modelled over the scratch
directory contents as a list of file names (base names inside `tmp/`).
The external tool invocation is a nondeterministic input: whether
`execAsync` threw (non-zero exit, timeout, spawn failure), and the files
present in the scratch directory after it returned or was killed. File
reads are modelled as succeeding on files present in the listing. -/

/-- Character-list version of JS `String.prototype.startsWith`. -/
def charsLead : List Char → List Char → Bool
  | [], _ => true
  | _ :: _, [] => false
  | c :: cs, d :: ds => c == d && charsLead cs ds

/-- JS `s.startsWith(pre)`, spelled out so it evaluates by reduction. -/
def strStartsWith (s pre : String) : Bool :=
  charsLead pre.data s.data

/-- Function `cleanupTempFiles`: remove every file whose name starts with the work
token (the base name of the output path it is given). -/
def cleanupTempFiles (fileId : String) : List String → List String
  | [] => []
  | f :: rest =>
    if strStartsWith f fileId then cleanupTempFiles fileId rest
    else f :: cleanupTempFiles fileId rest

/-- Function `path.extname`: the suffix from the last dot, empty for a dotless name
or a leading-dot-only name. -/
def pathExtname (name : String) : String :=
  let parts := name.splitOn "."
  match parts with
  | [] => ""
  | [_] => ""
  | first :: rest =>
    if first = "" && rest.length == 1 then ""
    else "." ++ parts.getLastD ""

/-- Outcome of the endpoint: a streamed file response or a JSON error. -/
inductive RouteResult
  | fileResponse (filename : String) (contentType : String)
  | jsonError (message : String) (statusCode : Nat)
  deriving DecidableEq, Repr

/-- Extension the endpoint expects for the requested format. -/
def extFor (format : String) : String :=
  if format = "mp3" then "mp3" else "mp4"

/-- Content type the endpoint serves for the requested format. -/
def contentTypeFor (format : String) : String :=
  if format = "mp3" then "audio/mpeg" else "video/mp4"

/-- The `GET` handler of the process-running download endpoint, from the
point after `ensureTempDir`: returns the HTTP outcome and the scratch
directory contents left behind. `fileId` is the random work token,
`execThrows` tells whether `execAsync` threw, `execErrorMsg` the message
of that exception, `titleFromStdout` the optional title parsed from the
stdout of the tool, and `filesAfterExec` the scratch listing once the tool is
done. -/
def routeDownloadGET (fileId : String) (format : String) (execThrows : Bool)
    (execErrorMsg : String) (titleFromStdout : Option String)
    (filesAfterExec : List String) : RouteResult × List String :=
  if execThrows then
    (.jsonError execErrorMsg 500, filesAfterExec)
  else
    let ext := extFor format
    let outputFile := fileId ++ "." ++ ext
    let title := titleFromStdout.getD "download"
    if outputFile ∈ filesAfterExec then
      (.fileResponse (title ++ "." ++ ext) (contentTypeFor format),
       cleanupTempFiles fileId filesAfterExec)
    else
      match filesAfterExec.find? (fun f => strStartsWith f fileId) with
      | some matchingFile =>
        let extnameTail := (pathExtname matchingFile).drop 1
        let actualExt := if extnameTail = "" then ext else extnameTail
        (.fileResponse (title ++ "." ++ actualExt) (contentTypeFor format),
         cleanupTempFiles fileId filesAfterExec)
      | none => (.jsonError "file was not created" 500, filesAfterExec)

/-! ### Spec-side formulas for the progress model -/

/-- Modelled from the spec: round to two decimal places (JS half-up). -/
def round2 (x : ℚ) : ℚ := ((jsRound (x * 100) : ℤ) : ℚ) / 100

/-- Modelled from the spec: clamp `x` into `[lo, hi]`. -/
def clamp (x lo hi : ℚ) : ℚ := min hi (max lo x)

/-! ### Helper lemmas about the progress model -/

lemma calculatePercentage_nonneg (d t : ℚ) : 0 ≤ calculatePercentage d t := by
  unfold calculatePercentage
  split
  · exact le_refl 0
  · exact le_min (by norm_num) (le_max_left 0 _)

lemma calculatePercentage_le_100 (d t : ℚ) : calculatePercentage d t ≤ 100 := by
  unfold calculatePercentage
  split
  · norm_num
  · exact min_le_left 100 _

lemma calculatePercentage_mono (t d d' : ℚ) (ht : 0 < t) (h : d ≤ d') :
    calculatePercentage d t ≤ calculatePercentage d' t := by
  unfold calculatePercentage
  rw [if_neg (not_le.mpr ht), if_neg (not_le.mpr ht)]
  apply min_le_min_left
  apply max_le_max_left
  unfold jsRound
  have hdt : d / t ≤ d' / t := by gcongr
  have hfloor : (⌊d / t * 100 * 100 + 1 / 2⌋ : ℤ) ≤ ⌊d' / t * 100 * 100 + 1 / 2⌋ := by
    apply Int.floor_le_floor
    nlinarith
  have hcast : ((⌊d / t * 100 * 100 + 1 / 2⌋ : ℤ) : ℚ) ≤
      ((⌊d' / t * 100 * 100 + 1 / 2⌋ : ℤ) : ℚ) := by exact_mod_cast hfloor
  linarith

/-! ### Helper lemmas about the registry -/

lemma lookupTask_setTask_self (l : List (String × DownloadTask)) (k : String)
    (v : DownloadTask) : lookupTask (setTask l k v) k = some v := by
  simp [setTask, lookupTask]

lemma lookupTask_eraseTask_self (l : List (String × DownloadTask)) (k : String) :
    lookupTask (eraseTask l k) k = none := by
  induction l with
  | nil => rfl
  | cons p rest ih =>
    rw [eraseTask]
    by_cases hp : p.1 = k
    · rw [if_pos hp]; exact ih
    · rw [if_neg hp, lookupTask, if_neg hp]; exact ih

lemma lookupTask_eraseTask_ne (l : List (String × DownloadTask)) (k k' : String)
    (h : k ≠ k') : lookupTask (eraseTask l k) k' = lookupTask l k' := by
  induction l with
  | nil => rfl
  | cons p rest ih =>
    rw [eraseTask]
    by_cases hp : p.1 = k
    · rw [if_pos hp, ih, lookupTask, if_neg (by rw [hp]; exact h)]
    · rw [if_neg hp, lookupTask, lookupTask]
      by_cases hk : p.1 = k'
      · rw [if_pos hk, if_pos hk]
      · rw [if_neg hk, if_neg hk, ih]

lemma lookupTask_setTask_ne (l : List (String × DownloadTask)) (k k' : String)
    (v : DownloadTask) (h : k ≠ k') :
    lookupTask (setTask l k v) k' = lookupTask l k' := by
  rw [setTask, lookupTask, if_neg h]
  exact lookupTask_eraseTask_ne l k k' h

/-! ## Claim theorems -/

/-- C3: `calculatePercentage downloaded total` equals
`clamp (round2 (downloaded/total*100)) 0 100` when `total > 0` and equals
`0` when `total ≤ 0`; for `total > 0` the result lies in `[0, 100]` and is
monotonically non-decreasing in `downloaded`. -/
theorem calculatePercentage_spec_C3 (d d' t : ℚ) :
    (0 < t → calculatePercentage d t = clamp (round2 (d / t * 100)) 0 100)
    ∧ (t ≤ 0 → calculatePercentage d t = 0)
    ∧ (0 < t → 0 ≤ calculatePercentage d t ∧ calculatePercentage d t ≤ 100)
    ∧ (0 < t → d ≤ d' → calculatePercentage d t ≤ calculatePercentage d' t) :=
  ⟨fun ht => by
      unfold calculatePercentage clamp round2
      rw [if_neg (not_le.mpr ht)],
   fun ht => by unfold calculatePercentage; rw [if_pos ht],
   fun _ => ⟨calculatePercentage_nonneg d t, calculatePercentage_le_100 d t⟩,
   fun ht h => calculatePercentage_mono t d d' ht h⟩

/-- Witness for C3 at `downloaded = 1, downloaded' = 2, total = 2` (and
`total = 0` for the non-positive case). -/
theorem calculatePercentage_spec_C3_witness :
    calculatePercentage 1 2 = clamp (round2 ((1 : ℚ) / 2 * 100)) 0 100
    ∧ calculatePercentage 1 0 = 0
    ∧ (0 ≤ calculatePercentage 1 2 ∧ calculatePercentage 1 2 ≤ 100)
    ∧ calculatePercentage 1 2 ≤ calculatePercentage 2 2 :=
  ⟨(calculatePercentage_spec_C3 1 2 2).1 (by norm_num),
   (calculatePercentage_spec_C3 1 2 0).2.1 (by norm_num),
   (calculatePercentage_spec_C3 1 2 2).2.2.1 (by norm_num),
   (calculatePercentage_spec_C3 1 2 2).2.2.2 (by norm_num) (by norm_num)⟩

/-- C6: `calculateETA remaining speed` is `⌈remaining / speed⌉` when both
are positive and `0` otherwise, in particular whenever `speed ≤ 0`. -/
theorem calculateETA_spec_C6 (remaining speed : ℚ) :
    (0 < speed → 0 < remaining →
      calculateETA remaining speed = ((⌈remaining / speed⌉ : ℤ) : ℚ))
    ∧ ((speed ≤ 0 ∨ remaining ≤ 0) → calculateETA remaining speed = 0) :=
  ⟨fun hs hr => by
      unfold calculateETA
      rw [if_neg (by push_neg; exact ⟨hs, hr⟩)],
   fun h => by unfold calculateETA; rw [if_pos h]⟩

/-- Witness for C6 at `remaining = 10, speed = 3` and `remaining = 5,
speed = 0`. -/
theorem calculateETA_spec_C6_witness :
    calculateETA 10 3 = ((⌈(10 : ℚ) / 3⌉ : ℤ) : ℚ) ∧ calculateETA 5 0 = 0 :=
  ⟨(calculateETA_spec_C6 10 3).1 (by norm_num) (by norm_num),
   (calculateETA_spec_C6 5 0).2 (Or.inl (by norm_num))⟩

/-- C2: pause fails with a not-found error on an unknown id and with a
wrong-status error whenever the task is not downloading (so pausing a
completed task always fails); resume fails likewise whenever the task is
not paused; every such failure leaves the stored state unchanged. -/
theorem pause_resume_invalid_C2 (st : ManagerState) (taskId : String)
    (now : ℚ) (t : DownloadTask) :
    (lookupTask st.activeDownloads taskId = none →
      pauseDownload st taskId now
        = (st, some ("Download task not found: " ++ taskId))
      ∧ resumeDownload st taskId
        = (st, some ("Download task not found: " ++ taskId)))
    ∧ (lookupTask st.activeDownloads taskId = some t →
        t.status ≠ DownloadStatus.downloading →
        pauseDownload st taskId now
          = (st, some ("Cannot pause download with status: "
              ++ statusToString t.status)))
    ∧ (lookupTask st.activeDownloads taskId = some t →
        t.status ≠ DownloadStatus.paused →
        resumeDownload st taskId
          = (st, some ("Cannot resume download with status: "
              ++ statusToString t.status))) := by
  refine ⟨fun h => ?_, fun h hs => ?_, fun h hs => ?_⟩
  · unfold pauseDownload resumeDownload
    rw [h]
    exact ⟨rfl, rfl⟩
  · unfold pauseDownload
    rw [h]
    exact if_pos hs
  · unfold resumeDownload
    rw [h]
    exact if_pos hs

/-- Demo fixtures used by the concrete witnesses below. -/
def mp4Opt : QualityOption :=
  { quality := .q720p, format := .mp4, fileSize := 1000, available := true }

def mp4OptU : QualityOption :=
  { quality := .q1080p, format := .mp4, fileSize := 2000, available := false }

def demoVideo : VideoInfo :=
  { id := "vid1", title := "Demo", duration := 60
    qualities := [mp4Opt, mp4OptU] }

def taskCompleted : DownloadTask :=
  { id := "a", videoInfo := demoVideo, quality := mp4Opt
    status := .completed, progress := createInitialProgress 1000
    startedAt := 0 }

def stCompleted : ManagerState :=
  { activeDownloads := [("a", taskCompleted)], downloadIntervals := [] }

/-- Witness for C2: unknown id on the empty registry, and pause/resume of
a completed task. -/
theorem pause_resume_invalid_C2_witness :
    (pauseDownload emptyState "missing" 0
        = (emptyState, some ("Download task not found: " ++ "missing"))
      ∧ resumeDownload emptyState "missing"
        = (emptyState, some ("Download task not found: " ++ "missing")))
    ∧ pauseDownload stCompleted "a" 0
      = (stCompleted, some ("Cannot pause download with status: "
          ++ statusToString taskCompleted.status))
    ∧ resumeDownload stCompleted "a"
      = (stCompleted, some ("Cannot resume download with status: "
          ++ statusToString taskCompleted.status)) :=
  ⟨(pause_resume_invalid_C2 emptyState "missing" 0 taskCompleted).1 rfl,
   (pause_resume_invalid_C2 stCompleted "a" 0 taskCompleted).2.1 rfl
     (by decide),
   (pause_resume_invalid_C2 stCompleted "a" 0 taskCompleted).2.2 rfl
     (by decide)⟩

/-- C4 counterexample: cancelling an absent id is not a tolerated no-op —
it returns a not-found error. -/
theorem cancel_absent_counterexample_C4 :
    cancelDownload emptyState "missing"
      = (emptyState, some ("Download task not found: " ++ "missing")) := rfl

/-- C4 amended: cancelling an absent id fails with a not-found error and
leaves the registry unchanged (removal is not idempotent). -/
theorem cancel_absent_amended_C4 (st : ManagerState) (taskId : String)
    (h : lookupTask st.activeDownloads taskId = none) :
    cancelDownload st taskId
      = (st, some ("Download task not found: " ++ taskId)) := by
  unfold cancelDownload
  rw [h]

/-- Witness for the amended C4 on the empty registry. -/
theorem cancel_absent_amended_C4_witness :
    cancelDownload emptyState "gone"
      = (emptyState, some ("Download task not found: " ++ "gone")) :=
  cancel_absent_amended_C4 emptyState "gone" rfl

/-- The task record `startDownload` builds for an accepted request. -/
def startedTask (taskId : String) (now : ℚ) (vi : VideoInfo)
    (q : QualityOption) : DownloadTask :=
  { id := taskId, videoInfo := vi, quality := q
    status := .downloading
    progress := createInitialProgress q.fileSize
    startedAt := now }

/-- C7: an available quality always starts a downloading task with zeroed
progress whose total is the file-size estimate of the quality, and the task is
stored; an unavailable quality is rejected with the state unchanged and no
task created. -/
theorem startDownload_spec_C7 (st : ManagerState) (taskId : String)
    (now : ℚ) (vi : VideoInfo) (q : QualityOption) :
    (q.available = true →
      (startDownload st taskId now vi q).2
          = Except.ok (startedTask taskId now vi q)
      ∧ lookupTask (startDownload st taskId now vi q).1.activeDownloads taskId
          = some (startedTask taskId now vi q)
      ∧ (startedTask taskId now vi q).status = DownloadStatus.downloading
      ∧ (startedTask taskId now vi q).progress.percentage = 0
      ∧ (startedTask taskId now vi q).progress.downloadedBytes = 0
      ∧ (startedTask taskId now vi q).progress.speed = 0
      ∧ (startedTask taskId now vi q).progress.estimatedTimeRemaining = 0
      ∧ (startedTask taskId now vi q).progress.totalBytes = q.fileSize)
    ∧ (q.available = false →
        startDownload st taskId now vi q
          = (st, Except.error
              "Selected quality is not available for this video")) := by
  constructor
  · intro h
    unfold startDownload
    rw [h]
    exact ⟨rfl, lookupTask_setTask_self _ _ _, rfl, rfl, rfl, rfl, rfl, rfl⟩
  · intro h
    unfold startDownload
    rw [h]
    rfl

/-- Witness for C7 with a concrete available and a concrete unavailable
quality option. -/
theorem startDownload_spec_C7_witness :
    ((startDownload emptyState "t1" 0 demoVideo mp4Opt).2
          = Except.ok (startedTask "t1" 0 demoVideo mp4Opt)
      ∧ lookupTask (startDownload emptyState "t1" 0 demoVideo
            mp4Opt).1.activeDownloads "t1"
          = some (startedTask "t1" 0 demoVideo mp4Opt)
      ∧ (startedTask "t1" 0 demoVideo mp4Opt).status
          = DownloadStatus.downloading
      ∧ (startedTask "t1" 0 demoVideo mp4Opt).progress.percentage = 0
      ∧ (startedTask "t1" 0 demoVideo mp4Opt).progress.downloadedBytes = 0
      ∧ (startedTask "t1" 0 demoVideo mp4Opt).progress.speed = 0
      ∧ (startedTask "t1" 0 demoVideo mp4Opt).progress.estimatedTimeRemaining
          = 0
      ∧ (startedTask "t1" 0 demoVideo mp4Opt).progress.totalBytes
          = mp4Opt.fileSize)
    ∧ startDownload emptyState "t2" 0 demoVideo mp4OptU
        = (emptyState, Except.error
            "Selected quality is not available for this video") :=
  ⟨(startDownload_spec_C7 emptyState "t1" 0 demoVideo mp4Opt).1 rfl,
   (startDownload_spec_C7 emptyState "t2" 0 demoVideo mp4OptU).2 rfl⟩

/-- Audio fixtures: an available mp3 option at the floor, and one whose
declared bitrate (96 kbps) sits below the floor. -/
def mp3Opt : QualityOption :=
  { quality := .q360p, format := .mp3, fileSize := 500
    bitrate := some 128, available := true }

def demoAudioVideo : VideoInfo :=
  { id := "vid2", title := "Song", duration := 100, qualities := [mp3Opt] }

def mp3OptLow : QualityOption :=
  { quality := .q360p, format := .mp3, fileSize := 500
    bitrate := some 96, available := true }

def demoLowAudio : VideoInfo :=
  { id := "vid3", title := "Low", duration := 50, qualities := [mp3OptLow] }

/-- C5 counterexample: `extractAudio` does not reject a 96 kbps request —
it succeeds, silently clamping the bitrate up to 128. -/
theorem audio_floor_counterexample_C5 :
    (extractAudio (some demoAudioVideo) 96 none).success = true
    ∧ (extractAudio (some demoAudioVideo) 96 none).bitrate = 128
    ∧ (extractAudio (some demoAudioVideo) 96 none).error = none := by
  decide

/-- C5 amended: `startMP3Download` rejects, before creating any task, a
request whose mp3 option declares a truthy (nonzero) bitrate below the 128
kbps floor; `extractAudio` never rejects a low target bitrate — whenever it
succeeds its bitrate is the target clamped up to the floor. -/
theorem audio_floor_amended_C5 (st : ManagerState) (taskId : String)
    (now : ℚ) (vi : VideoInfo) (q : QualityOption) (ovi : Option VideoInfo)
    (b : ℚ) (md : Option PartialAudioMetadata) :
    (vi.qualities.find? (fun q0 => q0.format == VideoFormat.mp3) = some q →
      q.available = true →
      bitrateTruthy q.bitrate = true →
      q.bitrate.getD 0 < MIN_AUDIO_BITRATE →
      startMP3Download st taskId now vi
        = (st, Except.error "Audio bitrate must be at least 128kbps"))
    ∧ ((extractAudio ovi b md).success = true →
        (extractAudio ovi b md).bitrate = max b MIN_AUDIO_BITRATE) := by
  constructor
  · intro hfind havail htruthy hlt
    simp [startMP3Download, hfind, havail, htruthy, hlt]
  · intro h
    cases ovi with
    | none => simp [extractAudio] at h
    | some vi' =>
      by_cases hid : vi'.id = ""
      · simp [extractAudio, hid] at h
      · cases hfind : vi'.qualities.find? (fun q0 => q0.format == VideoFormat.mp3) with
        | none => simp [extractAudio, hid, hfind] at h
        | some mq =>
          by_cases hav : mq.available = true
          · simp [extractAudio, hid, hfind, hav]
          · simp [extractAudio, hid, hfind, hav] at h

/-- Witness for the amended C5: the 96 kbps mp3 option is rejected by
`startMP3Download`, and a successful `extractAudio` call at target 96
reports the clamped bitrate. -/
theorem audio_floor_amended_C5_witness :
    startMP3Download emptyState "m1" 0 demoLowAudio
      = (emptyState, Except.error "Audio bitrate must be at least 128kbps")
    ∧ (extractAudio (some demoAudioVideo) 96 none).bitrate
      = max 96 MIN_AUDIO_BITRATE :=
  ⟨(audio_floor_amended_C5 emptyState "m1" 0 demoLowAudio mp3OptLow
      (some demoAudioVideo) 96 none).1 (by decide) rfl (by decide) (by decide),
   (audio_floor_amended_C5 emptyState "m1" 0 demoLowAudio mp3OptLow
      (some demoAudioVideo) 96 none).2 (by decide)⟩

/-- Files surviving `cleanupTempFiles` never carry the work token. -/
lemma cleanupTempFiles_no_token (fid : String) (l : List String) (f : String)
    (hf : f ∈ cleanupTempFiles fid l) : strStartsWith f fid = false := by
  induction l with
  | nil => cases hf
  | cons g rest ih =>
    rw [cleanupTempFiles] at hf
    by_cases hg : strStartsWith g fid = true
    · rw [if_pos hg] at hf
      exact ih hf
    · rw [if_neg hg] at hf
      cases hf with
      | head => exact Bool.eq_false_iff.mpr hg
      | tail _ hmem => exact ih hmem

/-- C1 counterexample: when the external tool throws (non-zero exit or
timeout) the handler returns through the catch block without any cleanup,
leaving a leftover .part file that carries the work token in the scratch
directory. -/
theorem cleanup_counterexample_C1 :
    (routeDownloadGET "w" "mp4" true "Download failed" none
        ["w.mp4.part"]).2 = ["w.mp4.part"]
    ∧ strStartsWith "w.mp4.part" "w" = true := by
  decide

/-- C1 amended: cleanup of every work-token file is guaranteed only on the
paths where the external tool invocation returned without throwing; after
such an invocation no file whose name begins with the token remains. When
the invocation throws, files carrying the token are left behind. -/
theorem cleanup_on_return_amended_C1 (fileId format msg : String)
    (title : Option String) (files : List String) (f : String)
    (hf : f ∈ (routeDownloadGET fileId format false msg title files).2) :
    strStartsWith f fileId = false := by
  unfold routeDownloadGET at hf
  simp only [Bool.false_eq_true, if_false] at hf
  split at hf
  · exact cleanupTempFiles_no_token _ _ _ hf
  · split at hf
    · exact cleanupTempFiles_no_token _ _ _ hf
    · rename_i hnone
      have := List.find?_eq_none.mp hnone f hf
      exact Bool.eq_false_iff.mpr this

/-- Witness for the amended C1 on a concrete scratch listing. -/
theorem cleanup_on_return_amended_C1_witness :
    "other.txt" ∈ (routeDownloadGET "w" "mp4" false "" none
        ["w.mp4", "other.txt"]).2
    ∧ strStartsWith "other.txt" "w" = false :=
  ⟨by decide,
   cleanup_on_return_amended_C1 "w" "mp4" "" none ["w.mp4", "other.txt"]
     "other.txt" (by decide)⟩

/-- Observer: the stored downloaded byte count of a task. -/
def taskBytes (st : ManagerState) (taskId : String) : Option ℚ :=
  (lookupTask st.activeDownloads taskId).map (fun t => t.progress.downloadedBytes)

/-- C8: a tick taken while a task is downloading strictly increases its
downloaded bytes, capped at the total; while it is paused a tick leaves
the task table untouched; pausing a downloading task zeroes its speed
without losing accumulated bytes. -/
theorem tick_pause_spec_C8 (st : ManagerState) (taskId : String)
    (t : DownloadTask) (baseSpeed r now : ℚ)
    (hb : 500000 ≤ baseSpeed) (hr0 : 0 ≤ r)
    (ht : lookupTask st.activeDownloads taskId = some t) :
    (t.status = DownloadStatus.downloading →
      t.progress.downloadedBytes < t.progress.totalBytes →
      (taskBytes (tick st taskId baseSpeed r now) taskId).isSome = true
      ∧ t.progress.downloadedBytes
          < (taskBytes (tick st taskId baseSpeed r now) taskId).getD 0
      ∧ (taskBytes (tick st taskId baseSpeed r now) taskId).getD 0
          ≤ t.progress.totalBytes)
    ∧ (t.status = DownloadStatus.paused →
        (tick st taskId baseSpeed r now).activeDownloads = st.activeDownloads)
    ∧ (t.status = DownloadStatus.downloading →
        lookupTask (pauseDownload st taskId now).1.activeDownloads taskId
          = some { t with
                   status := .paused
                   pausedAt := some now
                   progress := { t.progress with speed := 0 } }) := by
  have hbp : (0 : ℚ) < baseSpeed * (8 / 10 + r * (4 / 10)) * (1 / 10) := by
    have h1 : (0 : ℚ) < baseSpeed := lt_of_lt_of_le (by norm_num) hb
    have h2 : (0 : ℚ) < 8 / 10 + r * (4 / 10) := by nlinarith
    positivity
  refine ⟨fun hs hlt => ?_, fun hs => ?_, fun hs => ?_⟩
  · simp only [tick, ht]
    rw [if_neg (not_not_intro hs)]
    by_cases hc :
        (updateProgress t
            (min (t.progress.downloadedBytes
                + baseSpeed * (8 / 10 + r * (4 / 10)) * (1 / 10))
              t.progress.totalBytes)
            (baseSpeed * (8 / 10 + r * (4 / 10)))).percentage ≥ 100
    · rw [if_pos hc]
      simp only [taskBytes, lookupTask_setTask_self, Option.map_some,
        Option.isSome_some, Option.getD_some]
      exact ⟨rfl, hlt, le_refl _⟩
    · rw [if_neg hc]
      simp only [taskBytes, lookupTask_setTask_self, Option.map_some,
        Option.isSome_some, Option.getD_some, updateProgress]
      refine ⟨rfl, lt_min (by linarith) hlt, min_le_right _ _⟩
  · simp only [tick, ht]
    rw [if_pos (show t.status ≠ DownloadStatus.downloading by
      rw [hs]; decide)]
  · simp only [pauseDownload, ht]
    rw [if_neg (not_not_intro hs)]
    exact lookupTask_setTask_self _ _ _

/-- Fixtures for the tick witnesses: one downloading task, one paused. -/
def taskRunning : DownloadTask :=
  { id := "b", videoInfo := demoVideo, quality := mp4Opt
    status := .downloading
    progress := createInitialProgress 1000
    startedAt := 0 }

def stRunning : ManagerState :=
  { activeDownloads := [("b", taskRunning)], downloadIntervals := ["b"] }

def taskPaused : DownloadTask :=
  { taskRunning with id := "c", status := .paused }

def stPaused : ManagerState :=
  { activeDownloads := [("c", taskPaused)], downloadIntervals := [] }

/-- Witness for C8 on concrete downloading and paused tasks. -/
theorem tick_pause_spec_C8_witness :
    ((taskBytes (tick stRunning "b" 500000 0 7) "b").isSome = true
      ∧ taskRunning.progress.downloadedBytes
          < (taskBytes (tick stRunning "b" 500000 0 7) "b").getD 0
      ∧ (taskBytes (tick stRunning "b" 500000 0 7) "b").getD 0
          ≤ taskRunning.progress.totalBytes)
    ∧ (tick stPaused "c" 500000 0 7).activeDownloads
        = stPaused.activeDownloads
    ∧ lookupTask (pauseDownload stRunning "b" 9).1.activeDownloads "b"
        = some { taskRunning with
                 status := .paused
                 pausedAt := some 9
                 progress := { taskRunning.progress with speed := 0 } } :=
  ⟨(tick_pause_spec_C8 stRunning "b" taskRunning 500000 0 7 (by norm_num)
      (by norm_num) rfl).1 rfl (by decide),
   (tick_pause_spec_C8 stPaused "c" taskPaused 500000 0 7 (by norm_num)
      (by norm_num) rfl).2.1 rfl,
   (tick_pause_spec_C8 stRunning "b" taskRunning 500000 0 9 (by norm_num)
      (by norm_num) rfl).2.2 rfl⟩

/-! ### Reachability and the registry invariants -/

/-- The two data invariants of the spec on one stored task. -/
def taskInvariant (t : DownloadTask) : Prop :=
  0 ≤ t.progress.percentage ∧ t.progress.percentage ≤ 100
  ∧ (0 < t.progress.totalBytes →
      t.progress.downloadedBytes ≤ t.progress.totalBytes)

/-- Manager states reachable from module load by the exposed operations:
starting a download (with a fresh generated id), interval ticks (with the
random samples in the ranges the source draws them from), pause, resume
and cancel. -/
inductive Reachable : ManagerState → Prop
  | init : Reachable emptyState
  | start (st : ManagerState) (taskId : String) (now : ℚ) (vi : VideoInfo)
      (q : QualityOption) : Reachable st →
      lookupTask st.activeDownloads taskId = none →
      Reachable (startDownload st taskId now vi q).1
  | tickStep (st : ManagerState) (taskId : String) (r1 r2 now : ℚ) :
      Reachable st → 0 ≤ r1 → r1 ≤ 1 → 0 ≤ r2 → r2 ≤ 1 →
      Reachable (tick st taskId (500000 + r1 * 1500000) r2 now)
  | pauseStep (st : ManagerState) (taskId : String) (now : ℚ) :
      Reachable st → Reachable (pauseDownload st taskId now).1
  | resumeStep (st : ManagerState) (taskId : String) :
      Reachable st → Reachable (resumeDownload st taskId).1
  | cancelStep (st : ManagerState) (taskId : String) :
      Reachable st → Reachable (cancelDownload st taskId).1

lemma start_preserves_inv (st : ManagerState) (tid : String) (now : ℚ)
    (vi : VideoInfo) (q : QualityOption)
    (ih : ∀ id t, lookupTask st.activeDownloads id = some t → taskInvariant t) :
    ∀ id t,
      lookupTask (startDownload st tid now vi q).1.activeDownloads id = some t →
      taskInvariant t := by
  intro id t hl
  unfold startDownload at hl
  split at hl
  · exact ih id t hl
  · by_cases hid : tid = id
    · subst hid
      simp only [lookupTask_setTask_self, Option.some.injEq] at hl
      subst hl
      refine ⟨le_refl 0, by norm_num [createInitialProgress], fun h0 => ?_⟩
      exact le_of_lt h0
    · rw [lookupTask_setTask_ne _ _ _ _ hid] at hl
      exact ih id t hl

lemma tick_preserves_inv (st : ManagerState) (tid : String) (b r now : ℚ)
    (ih : ∀ id t, lookupTask st.activeDownloads id = some t → taskInvariant t) :
    ∀ id t,
      lookupTask (tick st tid b r now).activeDownloads id = some t →
      taskInvariant t := by
  intro id t hl
  cases hcur : lookupTask st.activeDownloads tid with
  | none =>
    simp only [tick, hcur] at hl
    exact ih id t hl
  | some ct =>
    simp only [tick, hcur] at hl
    by_cases hs : ct.status ≠ DownloadStatus.downloading
    · rw [if_pos hs] at hl
      exact ih id t hl
    · rw [if_neg hs] at hl
      by_cases hc : (updateProgress ct
          (min (ct.progress.downloadedBytes
              + b * (8 / 10 + r * (4 / 10)) * (1 / 10))
            ct.progress.totalBytes)
          (b * (8 / 10 + r * (4 / 10)))).percentage ≥ 100
      · rw [if_pos hc] at hl
        by_cases hid : tid = id
        · subst hid
          simp only [lookupTask_setTask_self, Option.some.injEq] at hl
          subst hl
          exact ⟨by norm_num, by norm_num, fun _ => le_refl _⟩
        · rw [lookupTask_setTask_ne _ _ _ _ hid] at hl
          exact ih id t hl
      · rw [if_neg hc] at hl
        by_cases hid : tid = id
        · subst hid
          simp only [lookupTask_setTask_self, Option.some.injEq] at hl
          subst hl
          exact ⟨calculatePercentage_nonneg _ _, calculatePercentage_le_100 _ _,
            fun _ => min_le_right _ _⟩
        · rw [lookupTask_setTask_ne _ _ _ _ hid] at hl
          exact ih id t hl

lemma pause_preserves_inv (st : ManagerState) (tid : String) (now : ℚ)
    (ih : ∀ id t, lookupTask st.activeDownloads id = some t → taskInvariant t) :
    ∀ id t,
      lookupTask (pauseDownload st tid now).1.activeDownloads id = some t →
      taskInvariant t := by
  intro id t hl
  cases hcur : lookupTask st.activeDownloads tid with
  | none =>
    simp only [pauseDownload, hcur] at hl
    exact ih id t hl
  | some ct =>
    simp only [pauseDownload, hcur] at hl
    by_cases hs : ct.status ≠ DownloadStatus.downloading
    · rw [if_pos hs] at hl
      exact ih id t hl
    · rw [if_neg hs] at hl
      by_cases hid : tid = id
      · subst hid
        simp only [lookupTask_setTask_self, Option.some.injEq] at hl
        subst hl
        exact ih tid ct hcur
      · simp only [lookupTask_setTask_ne _ _ _ _ hid] at hl
        exact ih id t hl

lemma resume_preserves_inv (st : ManagerState) (tid : String)
    (ih : ∀ id t, lookupTask st.activeDownloads id = some t → taskInvariant t) :
    ∀ id t,
      lookupTask (resumeDownload st tid).1.activeDownloads id = some t →
      taskInvariant t := by
  intro id t hl
  cases hcur : lookupTask st.activeDownloads tid with
  | none =>
    simp only [resumeDownload, hcur] at hl
    exact ih id t hl
  | some ct =>
    simp only [resumeDownload, hcur] at hl
    by_cases hs : ct.status ≠ DownloadStatus.paused
    · rw [if_pos hs] at hl
      exact ih id t hl
    · rw [if_neg hs] at hl
      by_cases hid : tid = id
      · subst hid
        simp only [lookupTask_setTask_self, Option.some.injEq] at hl
        subst hl
        exact ih tid ct hcur
      · rw [lookupTask_setTask_ne _ _ _ _ hid] at hl
        exact ih id t hl

lemma cancel_preserves_inv (st : ManagerState) (tid : String)
    (ih : ∀ id t, lookupTask st.activeDownloads id = some t → taskInvariant t) :
    ∀ id t,
      lookupTask (cancelDownload st tid).1.activeDownloads id = some t →
      taskInvariant t := by
  intro id t hl
  cases hcur : lookupTask st.activeDownloads tid with
  | none =>
    simp only [cancelDownload, hcur] at hl
    exact ih id t hl
  | some ct =>
    simp only [cancelDownload, hcur] at hl
    by_cases hid : tid = id
    · subst hid
      rw [lookupTask_eraseTask_self] at hl
      cases hl
    · rw [lookupTask_eraseTask_ne _ _ _ hid] at hl
      exact ih id t hl

lemma reachable_task_inv (st : ManagerState) (h : Reachable st) :
    ∀ id t, lookupTask st.activeDownloads id = some t → taskInvariant t := by
  induction h with
  | init =>
    intro id t hl
    simp [emptyState, lookupTask] at hl
  | start st tid now vi q _ _ ih => exact start_preserves_inv st tid now vi q ih
  | tickStep st tid r1 r2 now _ _ _ _ _ ih =>
    exact tick_preserves_inv st tid (500000 + r1 * 1500000) r2 now ih
  | pauseStep st tid now _ ih => exact pause_preserves_inv st tid now ih
  | resumeStep st tid _ ih => exact resume_preserves_inv st tid ih
  | cancelStep st tid _ ih => exact cancel_preserves_inv st tid ih

/-- C9: in every reachable manager state, every stored task satisfies
`0 ≤ percentage ≤ 100`, and `downloadedBytes ≤ totalBytes` whenever the
total is positive. -/
theorem registry_invariants_C9 (st : ManagerState) (taskId : String)
    (t : DownloadTask) (hr : Reachable st)
    (hl : lookupTask st.activeDownloads taskId = some t) :
    0 ≤ t.progress.percentage ∧ t.progress.percentage ≤ 100
    ∧ (0 < t.progress.totalBytes →
        t.progress.downloadedBytes ≤ t.progress.totalBytes) :=
  reachable_task_inv st hr taskId t hl

/-- Witness for C9 at the state reached by one `startDownload` from the
initial state. -/
theorem registry_invariants_C9_witness :
    0 ≤ (startedTask "a" 0 demoVideo mp4Opt).progress.percentage
    ∧ (startedTask "a" 0 demoVideo mp4Opt).progress.percentage ≤ 100
    ∧ (0 < (startedTask "a" 0 demoVideo mp4Opt).progress.totalBytes →
        (startedTask "a" 0 demoVideo mp4Opt).progress.downloadedBytes
          ≤ (startedTask "a" 0 demoVideo mp4Opt).progress.totalBytes) :=
  registry_invariants_C9 (startDownload emptyState "a" 0 demoVideo mp4Opt).1
    "a" (startedTask "a" 0 demoVideo mp4Opt)
    (Reachable.start emptyState "a" 0 demoVideo mp4Opt Reachable.init rfl)
    (by decide)

/-! ### Zero-total tasks never complete -/

/-- Observer: the stored status of a task. -/
def taskStatus (st : ManagerState) (taskId : String) : Option DownloadStatus :=
  (lookupTask st.activeDownloads taskId).map (fun t => t.status)

/-- Observer: the stored percentage of a task. -/
def taskPercentage (st : ManagerState) (taskId : String) : Option ℚ :=
  (lookupTask st.activeDownloads taskId).map (fun t => t.progress.percentage)

/-- A sequence of interval firings with given (base speed, random sample,
now) triples. -/
def tickSeq (st : ManagerState) (taskId : String)
    (ps : List (ℚ × ℚ × ℚ)) : ManagerState :=
  ps.foldl (fun s p => tick s taskId p.1 p.2.1 p.2.2) st

lemma tick_zero_total (st : ManagerState) (tid : String) (b r now : ℚ)
    (t : DownloadTask) (hb : 0 ≤ b) (hr : 0 ≤ r)
    (hl : lookupTask st.activeDownloads tid = some t)
    (hs : t.status = DownloadStatus.downloading)
    (h0 : t.progress.totalBytes = 0)
    (hd : t.progress.downloadedBytes = 0) :
    (tick st tid b r now).activeDownloads
      = setTask st.activeDownloads tid
          { t with progress := updateProgress t 0 (b * (8 / 10 + r * (4 / 10))) }
    ∧ (tick st tid b r now).downloadIntervals = st.downloadIntervals := by
  have hbpi : (0 : ℚ) ≤ b * (8 / 10 + r * (4 / 10)) * (1 / 10) := by nlinarith
  have hmin : min (t.progress.downloadedBytes
      + b * (8 / 10 + r * (4 / 10)) * (1 / 10)) t.progress.totalBytes = 0 := by
    rw [hd, h0, zero_add]
    exact min_eq_right hbpi
  have hpct : (updateProgress t 0 (b * (8 / 10 + r * (4 / 10)))).percentage = 0 := by
    simp [updateProgress, calculatePercentage, h0]
  simp only [tick, hl]
  rw [if_neg (not_not_intro hs), hmin]
  rw [if_neg (show ¬ (updateProgress t 0
      (b * (8 / 10 + r * (4 / 10)))).percentage ≥ 100 by rw [hpct]; norm_num)]
  exact ⟨rfl, rfl⟩

lemma tickSeq_zero_total (tid : String) (ps : List (ℚ × ℚ × ℚ)) :
    ∀ st t, (∀ p ∈ ps, 0 ≤ p.1 ∧ 0 ≤ p.2.1) →
      lookupTask st.activeDownloads tid = some t →
      t.status = DownloadStatus.downloading →
      t.progress.totalBytes = 0 →
      t.progress.downloadedBytes = 0 →
      t.progress.percentage = 0 →
      tid ∈ st.downloadIntervals →
      ∃ t', lookupTask (tickSeq st tid ps).activeDownloads tid = some t'
        ∧ t'.status = DownloadStatus.downloading
        ∧ t'.progress.totalBytes = 0
        ∧ t'.progress.downloadedBytes = 0
        ∧ t'.progress.percentage = 0
        ∧ tid ∈ (tickSeq st tid ps).downloadIntervals := by
  induction ps with
  | nil =>
    intro st t _ hl hs h0 hd hp hi
    exact ⟨t, hl, hs, h0, hd, hp, hi⟩
  | cons p rest ih =>
    intro st t hps hl hs h0 hd hp hi
    have hpm := hps p (List.mem_cons_self p rest)
    have hstep := tick_zero_total st tid p.1 p.2.1 p.2.2 t hpm.1 hpm.2 hl hs h0 hd
    have hts : tickSeq st tid (p :: rest)
        = tickSeq (tick st tid p.1 p.2.1 p.2.2) tid rest := rfl
    rw [hts]
    apply ih (tick st tid p.1 p.2.1 p.2.2)
      { t with progress := updateProgress t 0 (p.1 * (8 / 10 + p.2.1 * (4 / 10))) }
      (fun p2 hp2 => hps p2 (List.mem_cons_of_mem p hp2))
    · rw [hstep.1]
      exact lookupTask_setTask_self _ _ _
    · exact hs
    · show (updateProgress t 0 (p.1 * (8 / 10 + p.2.1 * (4 / 10)))).totalBytes = 0
      simp only [updateProgress]
      exact h0
    · show (updateProgress t 0 (p.1 * (8 / 10 + p.2.1 * (4 / 10)))).downloadedBytes = 0
      simp [updateProgress]
    · show (updateProgress t 0 (p.1 * (8 / 10 + p.2.1 * (4 / 10)))).percentage = 0
      simp [updateProgress, calculatePercentage, h0]
    · rw [hstep.2]
      exact hi

/-- C10: an available quality with a zero file-size estimate is accepted by
`startDownload`, and under any sequence of ticks the task keeps percentage
0 and downloaded bytes 0, stays in status downloading (never completed),
and its interval registration stays alive. -/
theorem zero_total_never_completes_C10 (st : ManagerState) (taskId : String)
    (now : ℚ) (vi : VideoInfo) (q : QualityOption) (ps : List (ℚ × ℚ × ℚ))
    (hav : q.available = true) (hfs : q.fileSize = 0)
    (hps : ∀ p ∈ ps, 0 ≤ p.1 ∧ 0 ≤ p.2.1) :
    (startDownload st taskId now vi q).2
        = Except.ok (startedTask taskId now vi q)
    ∧ taskStatus (tickSeq (startDownload st taskId now vi q).1 taskId ps) taskId
        = some DownloadStatus.downloading
    ∧ taskPercentage (tickSeq (startDownload st taskId now vi q).1 taskId ps) taskId
        = some 0
    ∧ taskBytes (tickSeq (startDownload st taskId now vi q).1 taskId ps) taskId
        = some 0
    ∧ taskId ∈ (tickSeq (startDownload st taskId now vi q).1 taskId ps).downloadIntervals := by
  have hfst : (startDownload st taskId now vi q).1
      = { activeDownloads :=
            setTask st.activeDownloads taskId (startedTask taskId now vi q)
          downloadIntervals := addKey st.downloadIntervals taskId } := by
    simp [startDownload, startedTask, hav]
  have hsnd : (startDownload st taskId now vi q).2
      = Except.ok (startedTask taskId now vi q) := by
    simp [startDownload, startedTask, hav]
  obtain ⟨t', hlook, hstat, _, hbytes, hpct, hint⟩ :=
    tickSeq_zero_total taskId ps (startDownload st taskId now vi q).1
      (startedTask taskId now vi q) hps
      (by rw [hfst]; exact lookupTask_setTask_self _ _ _)
      rfl
      (by simp [startedTask, createInitialProgress, hfs])
      (by simp [startedTask, createInitialProgress])
      (by simp [startedTask, createInitialProgress])
      (by rw [hfst]; simp [addKey])
  refine ⟨hsnd, ?_, ?_, ?_, hint⟩
  · simp [taskStatus, hlook, hstat]
  · simp [taskPercentage, hlook, hpct]
  · simp [taskBytes, hlook, hbytes]

/-- Zero-file-size fixtures for the C10 witness. -/
def mp4OptZero : QualityOption :=
  { quality := .q480p, format := .mp4, fileSize := 0, available := true }

def demoVideoZero : VideoInfo :=
  { id := "vid0", title := "Zero", duration := 10, qualities := [mp4OptZero] }

/-- Witness for C10 after one concrete tick. -/
theorem zero_total_never_completes_C10_witness :
    (startDownload emptyState "z" 0 demoVideoZero mp4OptZero).2
        = Except.ok (startedTask "z" 0 demoVideoZero mp4OptZero)
    ∧ taskStatus (tickSeq (startDownload emptyState "z" 0 demoVideoZero
          mp4OptZero).1 "z" [(600000, 1/2, 5)]) "z"
        = some DownloadStatus.downloading
    ∧ taskPercentage (tickSeq (startDownload emptyState "z" 0 demoVideoZero
          mp4OptZero).1 "z" [(600000, 1/2, 5)]) "z"
        = some 0
    ∧ taskBytes (tickSeq (startDownload emptyState "z" 0 demoVideoZero
          mp4OptZero).1 "z" [(600000, 1/2, 5)]) "z"
        = some 0
    ∧ "z" ∈ (tickSeq (startDownload emptyState "z" 0 demoVideoZero
          mp4OptZero).1 "z" [(600000, 1/2, 5)]).downloadIntervals :=
  zero_total_never_completes_C10 emptyState "z" 0 demoVideoZero mp4OptZero
    [(600000, 1/2, 5)] rfl rfl
    (by
      intro p hp
      rw [List.mem_singleton] at hp
      subst hp
      exact ⟨by norm_num, by norm_num⟩)

end Dl
